import Mathlib

/-
Verification of the reminder scheduling core of the reminders-bun server.

The embedding models the scheduler helper modules
(`src/scheduler/helpers/getAlertsToFire.ts`, `calculateNextEventTime.ts`,
`shouldDeactivateOneTime.ts`, `shouldDeactivateRecurring.ts`,
`hasAlreadyAlertedForEvent.ts`, `src/scheduler/config.ts`) and the webhook
route handlers in `src/route-handlers/webhook-reminder-alert.ts`.

JavaScript `Date` values are modelled by `JSTime`: either a finite timestamp
in milliseconds (`Date.getTime()` as a mathematical integer) or `nan`
(an Invalid Date, whose `getTime()` is NaN).  All numeric comparisons with
NaN are false in JavaScript, which the comparison helpers reproduce.
Date-string parsing (`new Date(string)`) and the external cron-parser
library are modelled as explicit function parameters, since both are
environment/library code outside the repository.
-/

/-- A JavaScript timestamp: `Date.getTime()` is either a finite number of
milliseconds or NaN (Invalid Date). -/
inductive JSTime where
  | nan : JSTime
  | fin : Int → JSTime
deriving DecidableEq, Repr

/-- `t.getTime() - d` for a Date `t` and a plain number `d`: NaN propagates. -/
def JSTime.subInt : JSTime → Int → JSTime
  | .nan, _ => .nan
  | .fin t, d => .fin (t - d)

/-- `a - t.getTime()` for a plain (finite) number `a` and a Date `t`. -/
def JSTime.intSub (a : Int) : JSTime → JSTime
  | .nan => .nan
  | .fin t => .fin (a - t)

/-- JavaScript `x >= c` for a possibly-NaN `x` and a plain constant `c`:
comparisons with NaN are false. -/
def JSTime.geInt : JSTime → Int → Bool
  | .nan, _ => false
  | .fin t, c => decide (c ≤ t)

/-- JavaScript `x < c`: comparisons with NaN are false. -/
def JSTime.ltInt : JSTime → Int → Bool
  | .nan, _ => false
  | .fin t, c => decide (t < c)

/-- JavaScript `x > c`: comparisons with NaN are false. -/
def JSTime.gtInt : JSTime → Int → Bool
  | .nan, _ => false
  | .fin t, c => decide (c < t)

/-- JavaScript `a.getTime() >= b.getTime()`: false when either is NaN. -/
def JSTime.geT : JSTime → JSTime → Bool
  | .fin a, .fin b => decide (b ≤ a)
  | _, _ => false

/-- JavaScript `a.getTime() > b.getTime()`: false when either is NaN. -/
def JSTime.gtT : JSTime → JSTime → Bool
  | .fin a, .fin b => decide (b < a)
  | _, _ => false

/-- JavaScript truthiness of a `string | null` field: `null` and the empty
string are falsy, every other string is truthy. -/
def truthyStr : Option String → Bool
  | none => false
  | some s => s ≠ ""

/-- An alert entry of a reminder: `{id, time}` where `time` is the offset in
milliseconds before the event instant (`offset_ms`). -/
structure Alert where
  id : String
  time : Int
deriving DecidableEq, Repr

/-- A contact target of a reminder (`reminders` list entry). -/
structure Contact where
  mode : String
  address : String
deriving DecidableEq, Repr

/-- The reminder entity (`TReminder` from `src/schemas.ts`), restricted to
the fields the scheduling core reads.  Date-valued fields are kept as the
raw strings stored in the database; parsing happens at each use site, as in
the source. -/
structure Reminder where
  id : Int
  title : String
  date : String
  is_recurring : Bool
  recurrence : Option String
  start_date : Option String
  end_date : Option String
  last_alert_time : Option String
  is_active : Bool
  alerts : List Alert
  reminders : List Contact
deriving DecidableEq, Repr

/-- `SCHEDULER_CONFIG.STALE_THRESHOLD_MS` from `src/scheduler/config.ts`:
one hour in milliseconds. -/
def STALE_THRESHOLD_MS : Int := 60 * 60 * 1000

/-- `hasAlreadyAlertedForEvent` from
`src/scheduler/helpers/hasAlreadyAlertedForEvent.ts`.
Non-recurring reminders always return false; recurring reminders with a
truthy `last_alert_time` compare `lastAlertTime.getTime() >= alertTime.getTime()`.
`parse` models `new Date(string).getTime()`. -/
def hasAlreadyAlertedForEvent (parse : String → JSTime) (reminder : Reminder)
    (alertTime : JSTime) : Bool :=
  if !reminder.is_recurring then
    false
  else if truthyStr reminder.last_alert_time then
    JSTime.geT (parse (reminder.last_alert_time.getD "")) alertTime
  else
    false

/-- The loop body of `getAlertsToFire`: scans the alert list in order; the
first alert whose `diff = now - (eventTime - alert.time)` satisfies
`diff >= 0 && diff < STALE_THRESHOLD_MS` and which is not skipped by
`hasAlreadyAlertedForEvent` is pushed and the loop breaks. -/
def getAlertsToFireGo (parse : String → JSTime) (reminder : Reminder)
    (eventTime : JSTime) (now : Int) : List Alert → List Alert
  | [] => []
  | alert :: rest =>
    let alertTime := eventTime.subInt alert.time
    let diff := JSTime.intSub now alertTime
    if diff.geInt 0 && diff.ltInt STALE_THRESHOLD_MS then
      if hasAlreadyAlertedForEvent parse reminder alertTime then
        getAlertsToFireGo parse reminder eventTime now rest
      else
        [alert]
    else
      getAlertsToFireGo parse reminder eventTime now rest

/-- `getAlertsToFire` from `src/scheduler/helpers/getAlertsToFire.ts`.
The `intervalMs` parameter is declared by the source but never read. -/
def getAlertsToFire (parse : String → JSTime) (reminder : Reminder)
    (eventTime : JSTime) (now : Int) (_intervalMs : Int) : List Alert :=
  getAlertsToFireGo parse reminder eventTime now reminder.alerts

/-- `calculateNextEventTime` from
`src/scheduler/helpers/calculateNextEventTime.ts`.
`cronNext` models `cron_parse.parse(expr, {currentDate: now}).next().toDate()`,
returning `none` when the library throws on a malformed expression.  For a
reminder that is not recurring (or whose `recurrence` is falsy) the fixed
`date` string is parsed unconditionally, Invalid Date included. -/
def calculateNextEventTime (cronNext : String → Int → Option Int)
    (parse : String → JSTime) (reminder : Reminder) (now : Int) :
    Option JSTime :=
  if reminder.is_recurring && truthyStr reminder.recurrence then
    match cronNext (reminder.recurrence.getD "") now with
    | some t => some (JSTime.fin t)
    | none => none
  else
    some (parse reminder.date)

/-- The `{shouldDeactivate, reason}` record returned by the deactivation
helpers. -/
structure Decision where
  shouldDeactivate : Bool
  reason : Option String
deriving DecidableEq, Repr

/-- `shouldDeactivateOneTime` from
`src/scheduler/helpers/shouldDeactivateOneTime.ts`:
deactivate when `last_alert_time` is truthy, else when
`now - new Date(reminder.date).getTime() > STALE_THRESHOLD_MS`. -/
def shouldDeactivateOneTime (parse : String → JSTime) (reminder : Reminder)
    (now : Int) : Decision :=
  if truthyStr reminder.last_alert_time then
    { shouldDeactivate := true,
      reason := some "one-time reminder has already alerted" }
  else
    let eventTime := parse reminder.date
    let timePastDue := JSTime.intSub now eventTime
    if timePastDue.gtInt STALE_THRESHOLD_MS then
      { shouldDeactivate := true,
        reason := some "missed (>1 hour stale)" }
    else
      { shouldDeactivate := false, reason := none }

/-- `shouldDeactivateRecurring` from
`src/scheduler/helpers/shouldDeactivateRecurring.ts`:
no-op without a truthy `recurrence` or without a truthy `end_date`;
otherwise deactivate exactly when
`nextEventTime.getTime() > new Date(end_date).getTime()`. -/
def shouldDeactivateRecurring (parse : String → JSTime) (reminder : Reminder)
    (nextEventTime : JSTime) : Decision :=
  if !truthyStr reminder.recurrence then
    { shouldDeactivate := false, reason := none }
  else if truthyStr reminder.end_date then
    if JSTime.gtT nextEventTime (parse (reminder.end_date.getD "")) then
      { shouldDeactivate := true,
        reason := some "next occurrence exceeds end_date" }
    else
      { shouldDeactivate := false, reason := none }
  else
    { shouldDeactivate := false, reason := none }

/-- An alert preset row (`{name, ms}`) as read by the repository-based
webhook handler. -/
structure AlertPreset where
  name : String
  ms : Int
deriving DecidableEq, Repr

/-- The logical response of a webhook invocation: the HTTP status set on the
context and the JSON fields of the returned body. -/
structure WebhookResponse where
  httpStatus : Nat
  status : Option String
  message : Option String
  reason : Option String
  error : Option String
  reminderTitle : Option String
deriving DecidableEq, Repr

/-- The storage side effects of a webhook invocation: whether notifications
were dispatched, the instant written by `updateLastAlertTime` (if any), and
whether the reminder was deactivated. -/
structure WebhookEffects where
  dispatched : Bool
  lastAlertTimeSet : Option Int
  deactivated : Bool
deriving DecidableEq, Repr

/-- No storage effects. -/
def noEffects : WebhookEffects :=
  { dispatched := false, lastAlertTimeSet := none, deactivated := false }

/-- JavaScript `!x` for an optional boolean payload field
(`isRecurring?: boolean`): `undefined` and `false` are falsy. -/
def jsNotOpt : Option Bool → Bool
  | none => true
  | some b => !b

/-- The repository-based webhook handler, first variant of
`webhookReminderAlertRoute` in `src/route-handlers/webhook-reminder-alert.ts`
(the variant keyed on `{reminderId, alertId}`).  Signature verification,
the repository lookups and the notification transport are external;
the lookups are passed in as arguments and the dispatch is recorded as an
effect.  After dispatching it evaluates the deactivation helpers with the
current time (`shouldDeactivateRecurring(reminder, now)` for recurring) and
persists `is_active := false` when they trigger; it never calls
`updateLastAlertTime`. -/
def webhookReminderAlertV1 (parse : String → JSTime)
    (reminderLookup : Option Reminder) (alertLookup : Option AlertPreset)
    (now : Int) : WebhookResponse × WebhookEffects :=
  match reminderLookup with
  | none =>
    ({ httpStatus := 404, status := none, message := none, reason := none,
       error := some "Reminder not found", reminderTitle := none },
     noEffects)
  | some reminder =>
    if !reminder.is_active then
      ({ httpStatus := 200, status := some "ok",
         message := some "Reminder inactive", reason := none, error := none,
         reminderTitle := none },
       noEffects)
    else
      match alertLookup with
      | none =>
        ({ httpStatus := 404, status := none, message := none, reason := none,
           error := some "Alert not found", reminderTitle := none },
         noEffects)
      | some _alert =>
        let contacts := reminder.reminders
        if contacts.length = 0 then
          ({ httpStatus := 200, status := some "ok",
             message := some "No contacts", reason := none, error := none,
             reminderTitle := none },
           noEffects)
        else
          let decision :=
            if reminder.is_recurring && truthyStr reminder.recurrence then
              shouldDeactivateRecurring parse reminder (JSTime.fin now)
            else
              shouldDeactivateOneTime parse reminder now
          ({ httpStatus := 200, status := some "ok", message := none,
             reason := none, error := none, reminderTitle := none },
           { dispatched := true, lastAlertTimeSet := none,
             deactivated := decision.shouldDeactivate })

/-- The `getReminderById`-based webhook handler, second variant of
`webhookReminderAlertRoute` in `src/route-handlers/webhook-reminder-alert.ts`
(the variant keyed on `{reminderId, alertTime?, isRecurring?}`).
A missing or inactive reminder short-circuits with a `skipped` body and no
error status; otherwise it dispatches notifications, calls
`updateLastAlertTime(reminder.id, new Date())`, and then calls
`deactivateReminder` exactly when `!isRecurring && !reminder.is_recurring`. -/
def webhookReminderAlertV2 (reminderLookup : Option Reminder)
    (payloadIsRecurring : Option Bool) (now : Int) :
    WebhookResponse × WebhookEffects :=
  match reminderLookup with
  | none =>
    ({ httpStatus := 200, status := some "skipped", message := none,
       reason := some "reminder_not_found", error := none,
       reminderTitle := none },
     noEffects)
  | some reminder =>
    if !reminder.is_active then
      ({ httpStatus := 200, status := some "skipped", message := none,
         reason := some "inactive", error := none, reminderTitle := none },
       noEffects)
    else
      ({ httpStatus := 200, status := some "ok", message := none,
         reason := none, error := none,
         reminderTitle := some reminder.title },
       { dispatched := true, lastAlertTimeSet := some now,
         deactivated := jsNotOpt payloadIsRecurring && !reminder.is_recurring })

/-- The candidate test of the `getAlertsToFire` loop, written out:
`diff >= 0 && diff < SCHEDULER_CONFIG.STALE_THRESHOLD_MS` with
`diff = now - (eventTime.getTime() - alert.time)`. -/
def alertCandidate (eventTime : JSTime) (now : Int) (alert : Alert) : Bool :=
  (JSTime.intSub now (eventTime.subInt alert.time)).geInt 0 &&
    (JSTime.intSub now (eventTime.subInt alert.time)).ltInt STALE_THRESHOLD_MS

/-- Date parsing (`new Date(s).getTime()`) on the sample strings used in the
concrete scenarios below; any other string is an Invalid Date, as `new Date`
yields on unparseable input. -/
def parseSample : String → JSTime := fun s =>
  if s = "t500" then JSTime.fin 500
  else if s = "t1000" then JSTime.fin 1000
  else if s = "t1000000" then JSTime.fin 1000000
  else JSTime.nan

/-- Stand-in for the external cron-parser on a weekly expression: the next
occurrence is one week after the reference instant (the library always
returns an occurrence strictly after `currentDate`). -/
def cronNextWeekly : String → Int → Option Int :=
  fun _ reference => some (reference + 604800000)

/-- Stand-in for the external cron-parser on a malformed expression: the
library throws, so no occurrence is produced. -/
def cronNextInvalid : String → Int → Option Int := fun _ _ => none

/-- A concrete active weekly recurring reminder whose recurrence window ends
at instant 1000000 (scenario input for claim C1). -/
def reminderC1 : Reminder :=
  { id := 1, title := "standup", date := "t500", is_recurring := true,
    recurrence := some "0 9 * * 1", start_date := some "t500",
    end_date := some "t1000000", last_alert_time := none, is_active := true,
    alerts := [{ id := "a1", time := 60000 }],
    reminders := [{ mode := "email", address := "u@example.com" }] }

/-- A concrete active weekly recurring reminder whose recurrence window ends
at instant 1000000 (scenario input for claim C6). -/
def reminderC6 : Reminder :=
  { id := 2, title := "weekly review", date := "t500", is_recurring := true,
    recurrence := some "0 9 * * 5", start_date := some "t500",
    end_date := some "t1000000", last_alert_time := none, is_active := true,
    alerts := [{ id := "a2", time := 60000 }],
    reminders := [{ mode := "email", address := "v@example.com" }] }

/-- A concrete inactive one-time reminder (scenario input for claim C8). -/
def reminderInactive : Reminder :=
  { id := 3, title := "dentist", date := "t1000", is_recurring := false,
    recurrence := none, start_date := none, end_date := none,
    last_alert_time := none, is_active := false,
    alerts := [{ id := "a3", time := 60000 }],
    reminders := [{ mode := "email", address := "w@example.com" }] }

/-- Unfolding equation for the selector loop on a cons cell, phrased with
`alertCandidate`. -/
theorem getAlertsToFireGo_cons (parse : String → JSTime) (r : Reminder)
    (ev : JSTime) (now : Int) (b : Alert) (rest : List Alert) :
    getAlertsToFireGo parse r ev now (b :: rest) =
      if alertCandidate ev now b then
        if hasAlreadyAlertedForEvent parse r (ev.subInt b.time) then
          getAlertsToFireGo parse r ev now rest
        else [b]
      else
        getAlertsToFireGo parse r ev now rest := rfl

/-- The idempotency helper is inert for non-recurring reminders. -/
theorem hasAlreadyAlerted_oneTime_false (parse : String → JSTime)
    (r : Reminder) (t : JSTime) (h : r.is_recurring = false) :
    hasAlreadyAlertedForEvent parse r t = false := by
  simp [hasAlreadyAlertedForEvent, h]

/-- The selector loop returns at most one alert. -/
theorem getAlertsToFireGo_length_le_one (parse : String → JSTime)
    (r : Reminder) (ev : JSTime) (now : Int) :
    ∀ l : List Alert, (getAlertsToFireGo parse r ev now l).length ≤ 1 := by
  intro l
  induction l with
  | nil => simp [getAlertsToFireGo]
  | cons b rest ih =>
    rw [getAlertsToFireGo_cons]
    by_cases hc : alertCandidate ev now b
    · by_cases hs : hasAlreadyAlertedForEvent parse r (ev.subInt b.time)
      · simpa [hc, hs] using ih
      · simp [hc, hs]
    · simpa [hc] using ih

/-- Every alert the selector loop returns passed the candidate test. -/
theorem mem_getAlertsToFireGo_candidate (parse : String → JSTime)
    (r : Reminder) (ev : JSTime) (now : Int) :
    ∀ (l : List Alert) (a : Alert), a ∈ getAlertsToFireGo parse r ev now l →
      alertCandidate ev now a = true := by
  intro l
  induction l with
  | nil => intro a h; simp [getAlertsToFireGo] at h
  | cons b rest ih =>
    intro a h
    rw [getAlertsToFireGo_cons] at h
    by_cases hc : alertCandidate ev now b
    · by_cases hs : hasAlreadyAlertedForEvent parse r (ev.subInt b.time)
      · exact ih a (by simpa [hc, hs] using h)
      · simp [hc, hs] at h
        simpa [h] using hc
    · exact ih a (by simpa [hc] using h)

/-- For a non-recurring reminder the selector loop fires as soon as any list
element passes the candidate test. -/
theorem getAlertsToFireGo_ne_nil_of_candidate (parse : String → JSTime)
    (r : Reminder) (ev : JSTime) (now : Int)
    (hrec : r.is_recurring = false) :
    ∀ (l : List Alert) (a : Alert), a ∈ l → alertCandidate ev now a = true →
      getAlertsToFireGo parse r ev now l ≠ [] := by
  intro l
  induction l with
  | nil => intro a h; simp at h
  | cons b rest ih =>
    intro a hmem hcand
    rw [getAlertsToFireGo_cons]
    by_cases hc : alertCandidate ev now b
    · simp [hc, hasAlreadyAlerted_oneTime_false parse r _ hrec]
    · rcases List.mem_cons.mp hmem with hab | har
      · exact absurd (hab ▸ hcand) (by simpa using hc)
      · simpa [hc] using ih a har hcand

/-- C4: for every one-time (non-recurring) reminder whose `last_alert_time`
holds an instant (a non-empty string: ISO instants are never empty), the
one-time deactivation policy returns `shouldDeactivate = true` for every
value of `now`, so a one-time reminder fires at most once, ever. -/
theorem oneTime_already_alerted_always_deactivates
    (parse : String → JSTime) (r : Reminder) (now : Int) (s : String)
    (hrec : r.is_recurring = false) (hset : r.last_alert_time = some s)
    (hne : s ≠ "") :
    (shouldDeactivateOneTime parse r now).shouldDeactivate = true := by
  simp [shouldDeactivateOneTime, truthyStr, hset, hne]

/-- C4 witness: a concrete already-alerted one-time reminder is deactivated
at an arbitrary later instant. -/
theorem oneTime_already_alerted_always_deactivates_witness :
    (shouldDeactivateOneTime parseSample
      { id := 4, title := "call mom", date := "t1000", is_recurring := false,
        recurrence := none, start_date := none, end_date := none,
        last_alert_time := some "t500", is_active := true,
        alerts := [{ id := "a4", time := 60000 }],
        reminders := [] } 987654321).shouldDeactivate = true :=
  oneTime_already_alerted_always_deactivates parseSample _ 987654321 "t500"
    rfl rfl (by decide)

/-- C7: for a never-alerted one-time reminder the staleness boundary is
exclusive: at `now - date = STALE_THRESHOLD_MS` exactly it is not
deactivated, and at `now - date = STALE_THRESHOLD_MS + 1` it is. -/
theorem oneTime_staleness_boundary_exclusive
    (parse : String → JSTime) (r : Reminder) (d now1 now2 : Int)
    (hla : r.last_alert_time = none) (hd : parse r.date = JSTime.fin d)
    (h1 : now1 - d = STALE_THRESHOLD_MS)
    (h2 : now2 - d = STALE_THRESHOLD_MS + 1) :
    (shouldDeactivateOneTime parse r now1).shouldDeactivate = false ∧
    (shouldDeactivateOneTime parse r now2).shouldDeactivate = true := by
  constructor
  · simp only [shouldDeactivateOneTime, truthyStr, hla, hd, JSTime.intSub,
      JSTime.gtInt, h1]
    simp
  · simp only [shouldDeactivateOneTime, truthyStr, hla, hd, JSTime.intSub,
      JSTime.gtInt, h2]
    simp [STALE_THRESHOLD_MS]

/-- C7 witness: the boundary instants for a concrete reminder with event
time 1000: not deactivated at now = 3601000, deactivated at now = 3601001. -/
theorem oneTime_staleness_boundary_exclusive_witness :
    (shouldDeactivateOneTime parseSample
      { id := 5, title := "water plants", date := "t1000",
        is_recurring := false, recurrence := none, start_date := none,
        end_date := none, last_alert_time := none, is_active := true,
        alerts := [{ id := "a5", time := 60000 }],
        reminders := [] } 3601000).shouldDeactivate = false ∧
    (shouldDeactivateOneTime parseSample
      { id := 5, title := "water plants", date := "t1000",
        is_recurring := false, recurrence := none, start_date := none,
        end_date := none, last_alert_time := none, is_active := true,
        alerts := [{ id := "a5", time := 60000 }],
        reminders := [] } 3601001).shouldDeactivate = true :=
  oneTime_staleness_boundary_exclusive parseSample _ 1000 3601000 3601001
    rfl (by decide) (by decide) (by decide)

/-- C9: for a non-recurring reminder the event-time resolver returns exactly
the parsed `reminder.date`, and the same value at any two instants: the
result is independent of `now`. -/
theorem resolveEventTime_oneTime_roundtrip
    (cronNext : String → Int → Option Int) (parse : String → JSTime)
    (r : Reminder) (now1 now2 : Int) (hrec : r.is_recurring = false) :
    calculateNextEventTime cronNext parse r now1 = some (parse r.date) ∧
    calculateNextEventTime cronNext parse r now1 =
      calculateNextEventTime cronNext parse r now2 := by
  simp [calculateNextEventTime, hrec]

/-- C9 witness: a concrete one-time reminder resolves to its fixed parsed
date at two different instants. -/
theorem resolveEventTime_oneTime_roundtrip_witness :
    calculateNextEventTime cronNextWeekly parseSample
      { id := 6, title := "dinner", date := "t1000", is_recurring := false,
        recurrence := none, start_date := none, end_date := none,
        last_alert_time := none, is_active := true, alerts := [],
        reminders := [] } 700 =
      some (JSTime.fin 1000) ∧
    calculateNextEventTime cronNextWeekly parseSample
      { id := 6, title := "dinner", date := "t1000", is_recurring := false,
        recurrence := none, start_date := none, end_date := none,
        last_alert_time := none, is_active := true, alerts := [],
        reminders := [] } 700 =
      calculateNextEventTime cronNextWeekly parseSample
        { id := 6, title := "dinner", date := "t1000", is_recurring := false,
          recurrence := none, start_date := none, end_date := none,
          last_alert_time := none, is_active := true, alerts := [],
          reminders := [] } 999999 :=
  resolveEventTime_oneTime_roundtrip cronNextWeekly parseSample _ 700 999999
    rfl

/-- C10: the event-time resolver returns `none` exactly when the reminder is
recurring with a truthy recurrence whose cron expression fails to parse; a
non-recurring reminder never yields `none` — its date string is parsed
unconditionally, so an unparseable date becomes an Invalid Date (NaN
timestamp) returned to the alert-time arithmetic rather than the null
failure branch. -/
theorem resolveEventTime_none_iff_bad_cron
    (cronNext : String → Int → Option Int) (parse : String → JSTime)
    (r : Reminder) (now : Int) :
    (calculateNextEventTime cronNext parse r now = none ↔
      r.is_recurring = true ∧ ∃ s, r.recurrence = some s ∧ s ≠ "" ∧
        cronNext s now = none) ∧
    (r.is_recurring = false →
      calculateNextEventTime cronNext parse r now = some (parse r.date)) := by
  constructor
  · unfold calculateNextEventTime
    rcases hrec : r.is_recurring with _ | _
    · simp [hrec]
    · rcases hr : r.recurrence with _ | s
      · simp [hr, truthyStr]
      · by_cases hs : s = ""
        · subst hs
          simp [hr, truthyStr]
        · cases hcn : cronNext s now with
          | none => simp [hr, truthyStr, hs, hcn]
          | some t => simp [hr, truthyStr, hs, hcn]
  · intro h
    simp [calculateNextEventTime, h]

/-- C10 witness: a recurring reminder with a malformed cron expression
resolves to `none`, and a one-time reminder with an unparseable date string
resolves to `some` Invalid Date (NaN), not `none`. -/
theorem resolveEventTime_none_iff_bad_cron_witness :
    calculateNextEventTime cronNextInvalid parseSample
      { id := 7, title := "broken", date := "t500", is_recurring := true,
        recurrence := some "not a cron", start_date := some "t500",
        end_date := none, last_alert_time := none, is_active := true,
        alerts := [], reminders := [] } 700 = none ∧
    calculateNextEventTime cronNextInvalid parseSample
      { id := 8, title := "odd date", date := "not a date",
        is_recurring := false, recurrence := none, start_date := none,
        end_date := none, last_alert_time := none, is_active := true,
        alerts := [], reminders := [] } 700 = some JSTime.nan := by
  constructor
  · exact (resolveEventTime_none_iff_bad_cron cronNextInvalid parseSample
      { id := 7, title := "broken", date := "t500", is_recurring := true,
        recurrence := some "not a cron", start_date := some "t500",
        end_date := none, last_alert_time := none, is_active := true,
        alerts := [], reminders := [] } 700).1.mpr
      ⟨rfl, "not a cron", rfl, by decide, rfl⟩
  · exact (resolveEventTime_none_iff_bad_cron cronNextInvalid parseSample
      { id := 8, title := "odd date", date := "not a date",
        is_recurring := false, recurrence := none, start_date := none,
        end_date := none, last_alert_time := none, is_active := true,
        alerts := [], reminders := [] } 700).2 rfl

/-- C2: the selector only returns alerts inside the candidate window
`0 ≤ diff < STALE_THRESHOLD_MS`; the result does not depend on the
evaluation-window width (`intervalMs` is never read); and for an
unblocked (non-recurring) reminder any listed alert inside the window makes
the selector fire — the stale threshold, not the evaluation window, is the
upper bound of the candidate window. -/
theorem alert_candidate_window_is_stale_threshold
    (parse : String → JSTime) (r : Reminder) (ev : JSTime) (now i : Int)
    (a : Alert) :
    (a ∈ getAlertsToFire parse r ev now i → alertCandidate ev now a = true) ∧
    getAlertsToFire parse r ev now i = getAlertsToFire parse r ev now 3000 ∧
    (r.is_recurring = false → a ∈ r.alerts → alertCandidate ev now a = true →
      getAlertsToFire parse r ev now i ≠ []) := by
  refine ⟨?_, rfl, ?_⟩
  · exact fun h => mem_getAlertsToFireGo_candidate parse r ev now r.alerts a h
  · intro hrec hmem hcand
    exact getAlertsToFireGo_ne_nil_of_candidate parse r ev now hrec r.alerts
      a hmem hcand

/-- C2 witness: an alert overdue by 500000 ms — far beyond the 3000 ms
evaluation window but below the one-hour stale threshold — still fires. -/
theorem alert_candidate_window_is_stale_threshold_witness :
    getAlertsToFire parseSample
      { id := 9, title := "lunch", date := "t1000000",
        is_recurring := false, recurrence := none, start_date := none,
        end_date := none, last_alert_time := none, is_active := true,
        alerts := [{ id := "b1", time := 60000 }],
        reminders := [] } (JSTime.fin 1000000) 1440000 3000 ≠ [] :=
  (alert_candidate_window_is_stale_threshold parseSample
    { id := 9, title := "lunch", date := "t1000000",
      is_recurring := false, recurrence := none, start_date := none,
      end_date := none, last_alert_time := none, is_active := true,
      alerts := [{ id := "b1", time := 60000 }],
      reminders := [] } (JSTime.fin 1000000) 1440000 3000
    { id := "b1", time := 60000 }).2.2 rfl (by decide) (by decide)

/-- C3: for a recurring reminder whose `last_alert_time` parses to an
instant at or after `eventTime - offset_ms` for a given alert, the selector
never returns that alert again for that same event time; and the idempotency
helper is inert for non-recurring reminders. -/
theorem recurring_idempotency_never_refires
    (parse : String → JSTime) (r : Reminder) (E now i L : Int) (a : Alert)
    (s : String) (hrec : r.is_recurring = true)
    (hla : r.last_alert_time = some s) (hs : s ≠ "")
    (hL : parse s = JSTime.fin L) (hge : E - a.time ≤ L) :
    a ∉ getAlertsToFire parse r (JSTime.fin E) now i ∧
    ∀ (r2 : Reminder) (t : JSTime), r2.is_recurring = false →
      hasAlreadyAlertedForEvent parse r2 t = false := by
  have hskip : hasAlreadyAlertedForEvent parse r
      ((JSTime.fin E).subInt a.time) = true := by
    simp [hasAlreadyAlertedForEvent, hrec, truthyStr, hla, hs, hL,
      JSTime.subInt, JSTime.geT, hge]
  constructor
  · show a ∉ getAlertsToFireGo parse r (JSTime.fin E) now r.alerts
    generalize r.alerts = l
    induction l with
    | nil => simp [getAlertsToFireGo]
    | cons b rest ih =>
      rw [getAlertsToFireGo_cons]
      by_cases hc : alertCandidate (JSTime.fin E) now b = true
      · by_cases hsb : hasAlreadyAlertedForEvent parse r
            ((JSTime.fin E).subInt b.time) = true
        · simpa [hc, hsb] using ih
        · simp only [hc, hsb, Bool.false_eq_true, if_true, if_false,
            List.mem_singleton]
          intro hab
          rw [hab] at hskip
          exact hsb hskip
      · simpa [hc] using ih
  · intro r2 t h
    exact hasAlreadyAlerted_oneTime_false parse r2 t h

/-- C3 witness: a recurring reminder already alerted at instant 1000 for the
occurrence at instant 1000 does not fire its 60000 ms alert again for that
event time. -/
theorem recurring_idempotency_never_refires_witness :
    { id := "a1", time := 60000 : Alert } ∉ getAlertsToFire parseSample
      { id := 10, title := "gym", date := "t500", is_recurring := true,
        recurrence := some "0 9 * * 1", start_date := some "t500",
        end_date := none, last_alert_time := some "t1000",
        is_active := true, alerts := [{ id := "a1", time := 60000 }],
        reminders := [] } (JSTime.fin 1000) 941000 3000 :=
  (recurring_idempotency_never_refires parseSample
    { id := 10, title := "gym", date := "t500", is_recurring := true,
      recurrence := some "0 9 * * 1", start_date := some "t500",
      end_date := none, last_alert_time := some "t1000",
      is_active := true, alerts := [{ id := "a1", time := 60000 }],
      reminders := [] } 1000 941000 3000 1000 { id := "a1", time := 60000 }
    "t1000" rfl rfl (by decide) (by decide) (by decide)).1

/-- C5: the selector returns at most one alert per call, and when the first
listed alert is due (candidate) and not blocked by the idempotency check,
the selector returns exactly that alert — earliest in list order wins even
when all N alerts are simultaneously due. -/
theorem selector_at_most_one_earliest_wins
    (parse : String → JSTime) (r : Reminder) (ev : JSTime) (now i : Int)
    (a : Alert) (rest : List Alert) (hAlerts : r.alerts = a :: rest)
    (hcand : alertCandidate ev now a = true)
    (hskip : hasAlreadyAlertedForEvent parse r (ev.subInt a.time) = false) :
    getAlertsToFire parse r ev now i = [a] ∧
    ∀ (r2 : Reminder) (ev2 : JSTime) (now2 i2 : Int),
      (getAlertsToFire parse r2 ev2 now2 i2).length ≤ 1 := by
  constructor
  · show getAlertsToFireGo parse r ev now r.alerts = [a]
    rw [hAlerts, getAlertsToFireGo_cons]
    simp [hcand, hskip]
  · intro r2 ev2 now2 i2
    exact getAlertsToFireGo_length_le_one parse r2 ev2 now2 r2.alerts

/-- C5 witness: a reminder with two alerts both inside the firing window at
now = 970000 returns exactly its first listed alert. -/
theorem selector_at_most_one_earliest_wins_witness :
    getAlertsToFire parseSample
      { id := 11, title := "flight", date := "t1000000",
        is_recurring := false, recurrence := none, start_date := none,
        end_date := none, last_alert_time := none, is_active := true,
        alerts := [{ id := "x", time := 60000 }, { id := "y", time := 30000 }],
        reminders := [] } (JSTime.fin 1000000) 970000 3000 =
      [{ id := "x", time := 60000 }] :=
  (selector_at_most_one_earliest_wins parseSample
    { id := 11, title := "flight", date := "t1000000",
      is_recurring := false, recurrence := none, start_date := none,
      end_date := none, last_alert_time := none, is_active := true,
      alerts := [{ id := "x", time := 60000 }, { id := "y", time := 30000 }],
      reminders := [] } (JSTime.fin 1000000) 970000 3000
    { id := "x", time := 60000 } [{ id := "y", time := 30000 }] rfl
    (by decide) (by decide)).1

/-- C1 counterexample: a webhook callback at instant 900000 for the active
weekly recurring reminder `reminderC1` (window ends at 1000000): the
Deactivation Policy, re-run on the computed next occurrence 605700000,
triggers; yet the handler that persists `last_alert_time` leaves the
reminder active — the deactivation is not re-evaluated, let alone
persisted. -/
theorem webhook_persist_then_policy_counterexample :
    (shouldDeactivateRecurring parseSample reminderC1
        (JSTime.fin 605700000)).shouldDeactivate = true ∧
    calculateNextEventTime cronNextWeekly parseSample reminderC1 900000 =
      some (JSTime.fin 605700000) ∧
    ((webhookReminderAlertV2 (some reminderC1)
        (some true) 900000).2).lastAlertTimeSet = some 900000 ∧
    ((webhookReminderAlertV2 (some reminderC1)
        (some true) 900000).2).deactivated = false := by
  refine ⟨by decide, by decide, rfl, rfl⟩

/-- C1 (amended): in push/webhook mode, on a callback for a reminder that
exists and is active, the getReminderById-based handler dispatches
notifications and persists `last_alert_time = now`, then deactivates the
reminder exactly when both the payload and the stored reminder mark it
non-recurring; the Deactivation Policy is not re-run (the repository-based
variant re-runs the policy but never persists `last_alert_time`). -/
theorem webhook_persists_lastAlert_then_deactivates_oneTime
    (r : Reminder) (isRec : Option Bool) (now : Int)
    (hact : r.is_active = true) :
    webhookReminderAlertV2 (some r) isRec now =
      ({ httpStatus := 200, status := some "ok", message := none,
         reason := none, error := none, reminderTitle := some r.title },
       { dispatched := true, lastAlertTimeSet := some now,
         deactivated := jsNotOpt isRec && !r.is_recurring }) := by
  simp [webhookReminderAlertV2, hact]

/-- C1 (amended) witness: the callback on the concrete active recurring
reminder dispatches, persists `last_alert_time = 900000` and does not
deactivate. -/
theorem webhook_persists_lastAlert_witness :
    webhookReminderAlertV2 (some reminderC1) (some true) 900000 =
      ({ httpStatus := 200, status := some "ok", message := none,
         reason := none, error := none,
         reminderTitle := some "standup" },
       { dispatched := true, lastAlertTimeSet := some 900000,
         deactivated := false }) := by
  rw [webhook_persists_lastAlert_then_deactivates_oneTime reminderC1
    (some true) 900000 rfl]
  rfl

/-- C6 (code evaluated at the failing input): for the weekly recurring
reminder `reminderC6` (window ends at 1000000) invoked at now = 900000, the
computed next occurrence 605700000 strictly exceeds `end_date`, so the
policy, applied to the computed next occurrence, deactivates; but the
repository-based webhook handler passes `now` as the policy's
`nextEventTime` argument and therefore does not deactivate.  The boundary
parts of the claim hold of the policy itself: a next occurrence exactly
equal to `end_date` does not deactivate, and an absent `end_date` never
deactivates. -/
theorem webhook_recurring_policy_evaluated_at_now_bug :
    calculateNextEventTime cronNextWeekly parseSample reminderC6 900000 =
      some (JSTime.fin 605700000) ∧
    (shouldDeactivateRecurring parseSample reminderC6
        (JSTime.fin 605700000)).shouldDeactivate = true ∧
    ((webhookReminderAlertV1 parseSample (some reminderC6)
        (some { name := "15 minutes before", ms := 900000 }) 900000).2
      ).deactivated = false ∧
    (shouldDeactivateRecurring parseSample reminderC6
        (JSTime.fin 1000000)).shouldDeactivate = false ∧
    (shouldDeactivateRecurring parseSample
        { reminderC6 with end_date := none }
        (JSTime.fin 605700000)).shouldDeactivate = false := by
  refine ⟨by decide, by decide, by decide, by decide, by decide⟩

/-- C8 counterexample: the repository-based webhook handler answers a
callback for a missing reminder with HTTP 404 and an error body — an error
response, not a skipped/ok outcome. -/
theorem webhook_missing_reminder_error_counterexample :
    (webhookReminderAlertV1 parseSample none none 0).1.httpStatus = 404 ∧
    (webhookReminderAlertV1 parseSample none none 0).1.error =
      some "Reminder not found" ∧
    (webhookReminderAlertV1 parseSample none none 0).1.status = none := by
  refine ⟨rfl, rfl, rfl⟩

/-- C8 (amended): an inactive reminder short-circuits with a non-error
skipped/ok outcome in both webhook handler variants, and a missing reminder
yields a "skipped" outcome in the getReminderById-based variant; the
repository-based variant instead responds 404 "Reminder not found". -/
theorem webhook_skip_outcomes
    (parse : String → JSTime) (lookupPreset : Option AlertPreset)
    (isRec : Option Bool) (now : Int) (r : Reminder)
    (hinact : r.is_active = false) :
    ((webhookReminderAlertV2 none isRec now).1.status = some "skipped" ∧
     (webhookReminderAlertV2 none isRec now).1.error = none ∧
     (webhookReminderAlertV2 none isRec now).1.httpStatus = 200) ∧
    ((webhookReminderAlertV2 (some r) isRec now).1.status = some "skipped" ∧
     (webhookReminderAlertV2 (some r) isRec now).1.error = none) ∧
    ((webhookReminderAlertV1 parse (some r) lookupPreset now).1.status =
        some "ok" ∧
     (webhookReminderAlertV1 parse (some r) lookupPreset now).1.error =
        none ∧
     (webhookReminderAlertV1 parse (some r) lookupPreset now).1.httpStatus =
        200) ∧
    ((webhookReminderAlertV1 parse none lookupPreset now).1.httpStatus =
        404 ∧
     (webhookReminderAlertV1 parse none lookupPreset now).1.error =
        some "Reminder not found") := by
  refine ⟨⟨rfl, rfl, rfl⟩, ?_, ?_, ⟨rfl, rfl⟩⟩
  · simp [webhookReminderAlertV2, hinact]
  · simp [webhookReminderAlertV1, hinact]

/-- C8 (amended) witness: the concrete inactive reminder yields skipped/ok
in both variants, and the missing-reminder 404 of the repository-based
variant is exhibited. -/
theorem webhook_skip_outcomes_witness :
    (webhookReminderAlertV2 (some reminderInactive) none 0).1.status =
      some "skipped" ∧
    ((webhookReminderAlertV1 parseSample
        (some reminderInactive) none 0).1).status = some "ok" ∧
    (webhookReminderAlertV1 parseSample none none 0).1.httpStatus = 404 :=
  ⟨(webhook_skip_outcomes parseSample none none 0 reminderInactive
      rfl).2.1.1,
   (webhook_skip_outcomes parseSample none none 0 reminderInactive
      rfl).2.2.1.1,
   (webhook_skip_outcomes parseSample none none 0 reminderInactive
      rfl).2.2.2.1⟩
